import Mathlib

/-!
Verification development for the `dyon` runtime (`src/runtime.rs`), a
tree-walking interpreter with a value stack, a local-binding stack and a
call stack.

Shallow embedding notes:
* Rust panics are modelled as `Except.error` with the panic message
  (interpolated arguments concatenated in).
* The `f64` payload of numbers is abstracted to `Int`; none of the claims
  settled here depends on IEEE-754 semantics.  Transcendental built-ins
  (`sqrt`, `sin`, ...) and nondeterministic or I/O built-ins (`random`,
  `read_line`, `read_number`) are therefore modelled as errors; their state
  discipline is irrelevant to every claim below.  `sleep`'s state effects
  (argument pop and type check) are modelled; the blocking wait is not.
  `print`/`println` pop their argument; the write to stdout is not modelled.
* `Variable::UnsafeRef(*mut Variable)`, a raw pointer into the value stack
  (possibly nested inside containers on the stack), is modelled as a path:
  a stack index plus a list of object-key / array-index segments.
* Rust's `HashMap<Arc<String>, Variable>` is modelled as an association
  list with unique keys (first occurrence wins on lookup).
* General recursion (function calls, loops) is made total with a fuel
  parameter; exhausting fuel is the distinguished error "out of fuel".
-/

namespace Dyon

/-- A segment of a raw-pointer path: an object key or an array index. -/
inductive Seg where
  | key (k : String)
  | idx (i : Nat)
  deriving Repr, DecidableEq

/-- Model of `*mut Variable` pointing into the value stack: the stack slot
`base` followed by a path of container segments inside that slot. -/
structure Pointer where
  base : Nat
  path : List Seg
  deriving Repr, DecidableEq

/-- `runtime.rs` `enum Variable`.  `Ref` is the stack reference
(`Variable::Ref(usize)`), `UnsafeRef` the raw pointer. -/
inductive Variable where
  | Return
  | Bool (b : Bool)
  | F64 (n : Int)
  | Text (s : String)
  | Object (obj : List (String × Variable))
  | Array (arr : List Variable)
  | Ref (i : Nat)
  | UnsafeRef (p : Pointer)
  deriving Repr

/-- `ast::UnOp`. -/
inductive UnOp where
  | Neg
  deriving Repr, DecidableEq

/-- `ast::BinOp`. -/
inductive BinOp where
  | Add | Sub | Mul | Div | Rem | Pow
  deriving Repr, DecidableEq

/-- `ast::CompareOp`. -/
inductive CompareOp where
  | Less | LessOrEqual | Greater | GreaterOrEqual | Equal | NotEqual
  deriving Repr, DecidableEq

/-- `ast::AssignOp`.  `Assign` is the declaring/inserting operator `:=`
(the branch of `assign_specific` that pushes a new local binding for a
bare name); `Set` is plain `=`; the rest are the compound operators. -/
inductive AssignOp where
  | Assign | Set | Add | Sub | Mul | Div | Rem | Pow
  deriving Repr, DecidableEq

/-- `runtime.rs` `enum Side`. -/
inductive Side where
  | LeftInsert (insert : Bool)
  | Right
  deriving Repr, DecidableEq

/-- `runtime.rs` `enum Expect`. -/
inductive Expect where
  | Nothing
  | Something
  deriving Repr, DecidableEq

/-- `runtime.rs` `enum Flow`. -/
inductive Flow where
  | Continue
  | Return
  | Break (label : Option String)
  | ContinueLoop (label : Option String)
  deriving Repr, DecidableEq

mutual
/-- `ast::Expression`.  `Block`, `If` and `For` blocks are inlined as
expression lists (`ast::Block` is a wrapper around `Vec<Expression>`). -/
inductive Expression where
  | Object (key_values : List (String × Expression))
  | Array (items : List Expression)
  | Block (expressions : List Expression)
  | Return (e : Expression)
  | Break (label : Option String)
  | Continue (label : Option String)
  | Call (name : String) (args : List Expression)
  | Item (name : String) (ids : List Id)
  | UnOp (op : UnOp) (e : Expression)
  | BinOp (op : BinOp) (left right : Expression)
  | Assign (op : AssignOp) (left right : Expression)
  | Number (num : Int)
  | Text (text : String)
  | Bool (val : Bool)
  | For (label : Option String) (init cond step : Expression)
      (block : List Expression)
  | If (cond : Expression) (true_block : List Expression)
      (else_block : Option (List Expression))
  | Compare (op : CompareOp) (left right : Expression)

/-- `ast::Id`: a literal key, a literal numeric index, or a bracketed
expression. -/
inductive Id where
  | String (s : String)
  | F64 (n : Int)
  | Expression (e : Expression)
end

/-- `ast::Function` (named `Func` to avoid clashing with Lean's `Function`
namespace): name, parameter names, whether it declares a return, body. -/
structure Func where
  name : String
  args : List String
  returns : Bool
  block : List Expression

/-- `struct Runtime`: value stack, call stack of
`(name, value_stack_base, local_stack_base)` frames, local-binding stack of
`(name, value_stack_index)`, and the immutable function table.  The RNG is
not modelled (only the nondeterministic `random` built-in used it). -/
structure Runtime where
  stack : List Variable
  call_stack : List (String × Nat × Nat)
  local_stack : List (String × Nat)
  functions : List (String × Func)

/-- First-occurrence lookup in an association list (`HashMap::get`). -/
def lookupKey {α : Type} (l : List (String × α)) (k : String) : Option α :=
  match l with
  | [] => none
  | (k', v) :: rest => if k' = k then some v else lookupKey rest k

/-- Replace the value of the first occurrence of key `k`; `none` if the key
is absent (in-place update of an occupied `HashMap` entry). -/
def setKey (l : List (String × Variable)) (k : String) (v : Variable) :
    Option (List (String × Variable)) :=
  match l with
  | [] => none
  | (k', v') :: rest =>
      if k' = k then some ((k', v) :: rest)
      else (setKey rest k v).map ((k', v') :: ·)

/-- Read one path segment inside a value. -/
def getSeg (v : Variable) (s : Seg) : Option Variable :=
  match v, s with
  | .Object obj, .key k => lookupKey obj k
  | .Array arr, .idx i => arr[i]?
  | _, _ => none

/-- Read the value at a path inside a value. -/
def readPath (v : Variable) : List Seg → Option Variable
  | [] => some v
  | s :: rest =>
    match getSeg v s with
    | some v' => readPath v' rest
    | none => none

/-- Overwrite the value at a path inside a value. -/
def setPath : List Seg → Variable → Variable → Option Variable
  | [], _, new => some new
  | .key k :: rest, .Object obj, new =>
    match lookupKey obj k with
    | none => none
    | some cur =>
      match setPath rest cur new with
      | none => none
      | some cur' => (setKey obj k cur').map .Object
  | .idx i :: rest, .Array arr, new =>
    match arr[i]? with
    | none => none
    | some cur =>
      match setPath rest cur new with
      | none => none
      | some cur' => some (.Array (arr.set i cur'))
  | _, _, _ => none

/-- Dereference a modelled raw pointer (`unsafe { &*var }`). -/
def readPtr (stack : List Variable) (p : Pointer) : Option Variable :=
  match stack[p.base]? with
  | some v => readPath v p.path
  | none => none

/-- Write through a modelled raw pointer (`unsafe { *r = v }`). -/
def writePtr (stack : List Variable) (p : Pointer) (new : Variable) :
    Option (List Variable) :=
  match stack[p.base]? with
  | some v =>
    match setPath p.path v new with
    | some v' => some (stack.set p.base v')
    | none => none
  | none => none

/-- `fn resolve`: unwrap one level of `Variable::Ref`; indexing the stack
out of range is the Rust index panic. -/
def resolveV (stack : List Variable) (v : Variable) :
    Except String Variable :=
  match v with
  | .Ref i =>
    match stack[i]? with
    | some x => .ok x
    | none => .error "index out of bounds"
  | x => .ok x

mutual
/-- `fn deep_clone`: structural copy that follows `Ref` through the stack
(hence fueled) and panics on `UnsafeRef`. -/
def deepClone : Nat → Variable → List Variable → Except String Variable
  | 0, _, _ => .error "out of fuel"
  | n + 1, v, stack =>
    match v with
    | .F64 x => .ok (.F64 x)
    | .Return => .ok .Return
    | .Bool b => .ok (.Bool b)
    | .Text s => .ok (.Text s)
    | .Object obj =>
      match deepCloneObj n obj stack with
      | .ok l => .ok (.Object l)
      | .error e => .error e
    | .Array arr =>
      match deepCloneArr n arr stack with
      | .ok l => .ok (.Array l)
      | .error e => .error e
    | .Ref i =>
      match stack[i]? with
      | some x => deepClone n x stack
      | none => .error "index out of bounds"
    | .UnsafeRef _ => .error "Unsafe reference can not be cloned"

def deepCloneObj : Nat → List (String × Variable) → List Variable →
    Except String (List (String × Variable))
  | 0, _, _ => .error "out of fuel"
  | _ + 1, [], _ => .ok []
  | n + 1, (k, v) :: rest, stack =>
    match deepClone n v stack with
    | .error e => .error e
    | .ok v' =>
      match deepCloneObj n rest stack with
      | .error e => .error e
      | .ok rest' => .ok ((k, v') :: rest')

def deepCloneArr : Nat → List Variable → List Variable →
    Except String (List Variable)
  | 0, _, _ => .error "out of fuel"
  | _ + 1, [], _ => .ok []
  | n + 1, v :: rest, stack =>
    match deepClone n v stack with
    | .error e => .error e
    | .ok v' =>
      match deepCloneArr n rest stack with
      | .error e => .error e
      | .ok rest' => .ok (v' :: rest')
end

/-- The array branch of `item_lookup`'s index computation: a literal
numeric id is truncated to a machine integer (`id as usize`, clamping
negatives like the Rust float-to-usize cast); a bracketed expression reads
the next pre-evaluated bracket result off the stack, resolving one `Ref`
level; a text id on an array panics `Expected array`. -/
def arrayIndex (stack : List Variable) (prop : Id)
    (startStackLen exprJ : Nat) : Except String (Nat × Nat) :=
  match prop with
  | .F64 n => .ok (n.toNat, exprJ)
  | .Expression _ =>
    -- Resolve reference of computed expression.
    let j := startStackLen + exprJ
    let j := match stack[j]? with
      | some (Variable.Ref r) => r
      | _ => j
    match stack[j]? with
    | some (Variable.F64 n) => .ok (n.toNat, exprJ + 1)
    | some _ => .error "Expected number"
    | none => .error "index out of bounds"
  | .String _ => .error "Expected array"

/-- `fn item_lookup`: one segment of the l-value walk.  Takes the current
stack, the cursor pointer, the segment, the base of the pre-evaluated
bracket-expression region, the count of bracket results consumed so far,
the insert flag and whether this is the last segment.  Returns the updated
stack (a vacant object key may be inserted), the new cursor and the updated
bracket counter. -/
def itemLookup (stack : List Variable) (cur : Pointer) (prop : Id)
    (startStackLen exprJ : Nat) (ins lastSeg : Bool) :
    Except String (List Variable × Pointer × Nat) :=
  match readPtr stack cur with
  | none => .error "invalid reference"
  | some (.Object obj) =>
    match prop with
    | .String id =>
      match lookupKey obj id with
      | none =>
        -- Vacant entry.
        if ins && lastSeg then
          -- Insert a key to overwrite with new value.
          match writePtr stack cur (.Object (obj ++ [(id, .Return)])) with
          | some stack' =>
            .ok (stack', ⟨cur.base, cur.path ++ [.key id]⟩, exprJ)
          | none => .error "invalid reference"
        else .error ("Object has no key `" ++ id ++ "`")
      | some v =>
        -- Occupied entry; do not resolve a `Ref` if last, because
        -- references should be copy-on-write.
        match v with
        | .Ref i =>
          if lastSeg then .ok (stack, ⟨cur.base, cur.path ++ [.key id]⟩, exprJ)
          else .ok (stack, ⟨i, []⟩, exprJ)
        | _ => .ok (stack, ⟨cur.base, cur.path ++ [.key id]⟩, exprJ)
    | _ => .error "Expected object"
  | some (.Array arr) =>
    match arrayIndex stack prop startStackLen exprJ with
    | .error e => .error e
    | .ok (i, exprJ') =>
      match arr[i]? with
      | none => .error "index out of bounds"
      | some v =>
        match v with
        | .Ref r =>
          if lastSeg then .ok (stack, ⟨cur.base, cur.path ++ [.idx i]⟩, exprJ')
          else .ok (stack, ⟨r, []⟩, exprJ')
        | _ => .ok (stack, ⟨cur.base, cur.path ++ [.idx i]⟩, exprJ')
  | some _ => .error "Expected object or array"

/-- The full l-value walk of `fn item`: `item_lookup` folded over the id
path (the first call has `last = (ids.len() == 1)`, the loop's has
`i + 2 == item_len`, i.e. `last` iff the remainder is empty). -/
def itemWalk (stack : List Variable) (cur : Pointer) (ids : List Id)
    (startStackLen exprJ : Nat) (ins : Bool) :
    Except String (List Variable × Pointer × Nat) :=
  match ids with
  | [] => .ok (stack, cur, exprJ)
  | prop :: rest =>
    match itemLookup stack cur prop startStackLen exprJ ins rest.isEmpty with
    | .error e => .error e
    | .ok (stack', cur', exprJ') =>
      itemWalk stack' cur' rest startStackLen exprJ' ins

/-- `fn push_fn`. -/
def pushFn (s : Runtime) (name : String) (st lc : Nat) : Runtime :=
  { s with call_stack := s.call_stack ++ [(name, st, lc)] }

/-- `fn pop_fn`: pop the frame and truncate both stacks to its bases. -/
def popFn (s : Runtime) (name : String) : Except String Runtime :=
  match s.call_stack.getLast? with
  | none => .error ("Did not call `" ++ name ++ "`")
  | some (fn_name, st, lc) =>
    if name ≠ fn_name then
      .error ("Calling `" ++ fn_name ++ "`, did not call `" ++ name ++ "`")
    else
      .ok { s with
        call_stack := s.call_stack.dropLast,
        stack := s.stack.take st,
        local_stack := s.local_stack.take lc }

/-- Truncate both stacks (`stack.truncate(st); local_stack.truncate(lc)`). -/
def truncStacks (s : Runtime) (st lc : Nat) : Runtime :=
  { s with stack := s.stack.take st, local_stack := s.local_stack.take lc }

/-- Push a value on the value stack. -/
def pushV (s : Runtime) (v : Variable) : Runtime :=
  { s with stack := s.stack ++ [v] }

/-- Pop the value stack (`stack.pop()`), `none` when empty. -/
def popV (s : Runtime) : Option (Runtime × Variable) :=
  match s.stack.getLast? with
  | none => none
  | some v => some ({ s with stack := s.stack.dropLast }, v)

/-- The pop + shallow `Ref` dereference of the `:=` branch of
`assign_specific`: `stack.pop()`, then a `Ref(ind)` result is replaced by a
shallow clone `stack[ind].clone()` read from the popped stack. -/
def popDeref (s : Runtime) : Except String (Runtime × Variable) :=
  match popV s with
  | none => .error "There is no value on the stack"
  | some (s', .Ref ind) =>
    match s'.stack[ind]? with
    | some x => .ok (s', x)
    | none => .error "index out of bounds"
  | some (s', x) => .ok (s', x)

/-- Search the current frame's local bindings, newest first, for `name`
(the `local_stack.iter().rev().take(locals)` loop). -/
def findLocal (s : Runtime) (name : String) : Except String (Option Nat) :=
  match s.call_stack.getLast? with
  | none => .error "no call frame"
  | some (_, _, lcBase) =>
    let locals := s.local_stack.length - lcBase
    match (s.local_stack.reverse.take locals).find?
        (fun p => p.1 = name) with
    | some (_, id) => .ok (some id)
    | none => .ok none

/-- Parameter binding of `fn call`: parameter `i` is bound to stack index
`st + i`, dereferencing a `StackRef` once if present. -/
def bindParams (stack : List Variable) (params : List String) (j : Nat) :
    Except String (List (String × Nat)) :=
  match params with
  | [] => .ok []
  | p :: rest =>
    match stack[j]? with
    | none => .error "index out of bounds"
    | some v =>
      let j' := match v with
        | .Ref ind => ind
        | _ => j
      match bindParams stack rest (j + 1) with
      | .error e => .error e
      | .ok binds => .ok ((p, j') :: binds)

/-- The typed-dispatch tail of the updating branch of `assign_specific`:
`b` is the popped right operand, `bres` its one-level resolution, `r` the
normalized target handle.  Returns the updated value stack.

The numeric operators act on the `Int` abstraction of `f64` (`Pow` clamps
a negative exponent to zero).  The source skips the write in the
object/object and array/array cases when the target and source containers
share an address (which in the model happens exactly when `b` is a `Ref`
to the very slot `r` points at); that skipped write would have written an
equal value, so it is a no-op in value semantics either way. -/
def updateThroughRef (op : AssignOp) (stack : List Variable) (r : Pointer)
    (b bres : Variable) : Except String (List Variable) :=
  let write := fun (v : Variable) =>
    match writePtr stack r v with
    | some stack' => Except.ok stack'
    | none => Except.error "invalid reference"
  match readPtr stack r with
  | none => .error "invalid reference"
  | some cur =>
    match bres with
    | .F64 bn =>
      match cur with
      | .F64 n =>
        match op with
        | .Set => write (.F64 bn)
        | .Add => write (.F64 (n + bn))
        | .Sub => write (.F64 (n - bn))
        | .Mul => write (.F64 (n * bn))
        | .Div => write (.F64 (n / bn))
        | .Rem => write (.F64 (n % bn))
        | .Pow => write (.F64 (n ^ bn.toNat))
        | .Assign => .ok stack
      | .Return =>
        if op = .Set then write (.F64 bn)
        else .error "Return has no value"
      | _ => .error "Expected assigning to a number"
    | .Bool bb =>
      match cur with
      | .Bool _ =>
        if op = .Set then write (.Bool bb)
        else .error "not implemented"
      | .Return =>
        if op = .Set then write (.Bool bb)
        else .error "Return has no value"
      | _ => .error "Expected assigning to a bool"
    | .Text bt =>
      match cur with
      | .Text n =>
        match op with
        | .Set => write (.Text bt)
        | .Add => write (.Text (n ++ bt))
        | _ => .error "not implemented"
      | .Return =>
        if op = .Set then write (.Text bt)
        else .error "Return has no value"
      | _ => .error "Expected assigning to text"
    | .Object obj =>
      match cur with
      | .Object _ =>
        if op = .Set then
          match b with
          | .Ref ind =>
            if r = ⟨ind, []⟩ then .ok stack else write (.Ref ind)
          | _ => write b
        else .error "not implemented"
      | .Return =>
        if op = .Set then write (.Object obj)
        else .error "Return has no value"
      | _ => .error "Expected assigning to object"
    | .Array arr =>
      match cur with
      | .Array _ =>
        if op = .Set then
          match b with
          | .Ref ind =>
            if r = ⟨ind, []⟩ then .ok stack else write (.Ref ind)
          | _ => write b
        else .error "not implemented"
      | .Return =>
        if op = .Set then write (.Array arr)
        else .error "Return has no value"
      | _ => .error "Expected assigning to array"
    | _ => .error "not implemented"

/-- Normalization of the popped left handle in the updating branch of
`assign_specific`: a `Ref(ind)` becomes a pointer to slot `ind`; an
`UnsafeRef` whose target currently holds a `Ref(ind)` first materializes a
shallow clone of `stack[ind]` into the target slot. -/
def normalizeTarget (stack : List Variable) (a : Variable) :
    Except String (List Variable × Pointer) :=
  match a with
  | .Ref ind => .ok (stack, ⟨ind, []⟩)
  | .UnsafeRef p =>
    match readPtr stack p with
    | some (.Ref ind) =>
      match stack[ind]? with
      | none => .error "index out of bounds"
      | some v =>
        match writePtr stack p v with
        | some stack' => .ok (stack', p)
        | none => .error "invalid reference"
    | some _ => .ok (stack, p)
    | none => .error "invalid reference"
  | _ => .error "Expected reference"

/-- The one-level `Ref` unwrapping of a local slot index
(`let id = if let &Variable::Ref(ref_id) = &stack[id] { ref_id } else { id }`). -/
def refTargetD (v : Variable) (d : Nat) : Nat :=
  match v with
  | .Ref r => r
  | _ => d

/-- The outcome of one pass of the `loop` body in `fn for_expr`: run the
next iteration from the given state, or exit with a final state and flow. -/
inductive LoopStep where
  | again (s : Runtime)
  | done (s : Runtime) (f : Flow)

/-- Outcome of the argument-evaluation loop of `fn call`: all arguments
evaluated, or a `Return` flow aborting the call. -/
inductive ArgsOut where
  | done (s : Runtime)
  | early (s : Runtime) (x : Expect)

set_option maxHeartbeats 3000000

mutual

/-- `fn expression`: dispatch on the AST node kind.  Yields the updated
state, the production and the flow. -/
def evalExpr (fuel : Nat) (e : Expression) (side : Side) (s : Runtime) :
    Except String (Runtime × Expect × Flow) :=
  match fuel with
  | 0 => .error "out of fuel"
  | n + 1 =>
    match e with
    | .Object kvs =>
      match evalObjEntries n kvs [] s with
      | .error err => .error err
      | .ok s' => .ok (s', .Something, .Continue)
    | .Array items =>
      match evalArrEntries n items [] s with
      | .error err => .error err
      | .ok s' => .ok (s', .Something, .Continue)
    | .Block es => evalBlock n es s
    | .Return ret =>
      -- Assign the return value, then break the flow; the result of the
      -- inner assignment is discarded by the source.
      match assignSpecific n .Set (.Item "return" []) ret s with
      | .error err => .error err
      | .ok (s', _) => .ok (s', .Something, .Return)
    | .Break label => .ok (s, .Nothing, .Break label)
    | .Continue label => .ok (s, .Nothing, .ContinueLoop label)
    | .Call name args => evalCall n name args s
    | .Item name ids =>
      match itemEval n name ids side s with
      | .error err => .error err
      | .ok s' => .ok (s', .Something, .Continue)
    | .UnOp op e1 =>
      match unopEval n op e1 side s with
      | .error err => .error err
      | .ok (s', fl) => .ok (s', .Something, fl)
    | .BinOp op l r =>
      match binopEval n op l r side s with
      | .error err => .error err
      | .ok (s', fl) => .ok (s', .Something, fl)
    | .Assign op l r =>
      match assignSpecific n op l r s with
      | .error err => .error err
      | .ok (s', fl) => .ok (s', .Nothing, fl)
    | .Number num => .ok (pushV s (.F64 num), .Something, .Continue)
    | .Text t => .ok (pushV s (.Text t), .Something, .Continue)
    | .Bool b => .ok (pushV s (.Bool b), .Something, .Continue)
    | .For label init cond step block =>
      match forExpr n label init cond step block s with
      | .error err => .error err
      | .ok (s', fl) => .ok (s', .Nothing, fl)
    | .If cond tb eb => ifExpr n cond tb eb s
    | .Compare op l r =>
      match compareEval n op l r s with
      | .error err => .error err
      | .ok (s', fl) => .ok (s', .Something, fl)

termination_by structural fuel
/-- The key/value loop of `fn object`: each value expression is evaluated
on the `Right` side with its flow discarded, popped, and inserted;
duplicate keys panic.  The built object is pushed at the end. -/
def evalObjEntries (fuel : Nat) (kvs : List (String × Expression))
    (acc : List (String × Variable)) (s : Runtime) :
    Except String Runtime :=
  match fuel with
  | 0 => .error "out of fuel"
  | n + 1 =>
    match kvs with
    | [] => .ok (pushV s (.Object acc))
    | (k, e) :: rest =>
      match evalExpr n e .Right s with
      | .error err => .error err
      | .ok (s', _, _) =>
        match popV s' with
        | none => .error "There is no value on the stack"
        | some (s'', x) =>
          match lookupKey acc k with
          | some _ => .error ("Duplicate key in object `" ++ k ++ "`")
          | none => evalObjEntries n rest (acc ++ [(k, x)]) s''

termination_by structural fuel
/-- The item loop of `fn array`: flows are likewise discarded. -/
def evalArrEntries (fuel : Nat) (items : List Expression)
    (acc : List Variable) (s : Runtime) : Except String Runtime :=
  match fuel with
  | 0 => .error "out of fuel"
  | n + 1 =>
    match items with
    | [] => .ok (pushV s (.Array acc))
    | e :: rest =>
      match evalExpr n e .Right s with
      | .error err => .error err
      | .ok (s', _, _) =>
        match popV s' with
        | none => .error "There is no value on the stack"
        | some (s'', x) => evalArrEntries n rest (acc ++ [x]) s''

termination_by structural fuel
/-- `fn block`: record the local-stack height, run the expressions,
threading the production of `Continue` steps; any other flow returns at
once without truncating; on normal exit truncate the local stack. -/
def evalBlock (fuel : Nat) (es : List Expression) (s : Runtime) :
    Except String (Runtime × Expect × Flow) :=
  match fuel with
  | 0 => .error "out of fuel"
  | n + 1 => evalBlockList n es .Nothing s.local_stack.length s

termination_by structural fuel
def evalBlockList (fuel : Nat) (es : List Expression) (expect : Expect)
    (lc : Nat) (s : Runtime) : Except String (Runtime × Expect × Flow) :=
  match fuel with
  | 0 => .error "out of fuel"
  | n + 1 =>
    match es with
    | [] =>
      .ok ({ s with local_stack := s.local_stack.take lc }, expect, .Continue)
    | e :: rest =>
      match evalExpr n e .Right s with
      | .error err => .error err
      | .ok (s', x, .Continue) => evalBlockList n rest x lc s'
      | .ok (s', x, fl) => .ok (s', x, fl)

termination_by structural fuel
/-- The argument loop of `fn call` (both the built-in and the user-function
paths use the same loop): each argument must produce `Something`; a
`Return` flow aborts the call and propagates. -/
def evalArgs (fuel : Nat) (args : List Expression) (s : Runtime) :
    Except String ArgsOut :=
  match fuel with
  | 0 => .error "out of fuel"
  | n + 1 =>
    match args with
    | [] => .ok (.done s)
    | a :: rest =>
      match evalExpr n a .Right s with
      | .error err => .error err
      | .ok (s', x, .Return) => .ok (.early s' x)
      | .ok (s', .Something, .Continue) => evalArgs n rest s'
      | .ok _ => .error "Expected something from argument"

termination_by structural fuel
/-- `fn call`.  A name absent from the user function table falls back to
the built-in table; a user function checks arity, reserves a return slot
when it declares a return, evaluates arguments, pushes the frame, binds
`return` and the parameters, runs the body and unwinds. -/
def evalCall (fuel : Nat) (name : String) (args : List Expression)
    (s : Runtime) : Except String (Runtime × Expect × Flow) :=
  match fuel with
  | 0 => .error "out of fuel"
  | n + 1 =>
    match lookupKey s.functions name with
    | none =>
      let st := s.stack.length
      let lc := s.local_stack.length
      match evalArgs n args s with
      | .error err => .error err
      | .ok (.early s' x) => .ok (s', x, .Return)
      | .ok (.done s₁) =>
        match callBuiltin n name st lc s₁ with
        | .error err => .error err
        | .ok (s₂, x) => .ok (s₂, x, .Continue)
    | some f =>
      if args.length ≠ f.args.length then
        .error ("Expected " ++ toString f.args.length ++
          " arguments but found " ++ toString args.length)
      else
        -- Add return value before arguments on the stack.
        let s₁ := if f.returns then pushV s .Return else s
        let st := s₁.stack.length
        let lc := s₁.local_stack.length
        match evalArgs n args s₁ with
        | .error err => .error err
        | .ok (.early s' x) => .ok (s', x, .Return)
        | .ok (.done s₂) =>
          let s₃ := pushFn s₂ name st lc
          let s₃ := if f.returns then
              { s₃ with local_stack := s₃.local_stack ++ [("return", st - 1)] }
            else s₃
          match bindParams s₃.stack f.args st with
          | .error err => .error err
          | .ok binds =>
            let s₄ := { s₃ with local_stack := s₃.local_stack ++ binds }
            match evalBlock n f.block s₄ with
            | .error err => .error err
            | .ok (s₅, x, flow) =>
              match flow with
              | .Break none => .error "Can not break from function"
              | .ContinueLoop none => .error "Can not continue from function"
              | .Break (some l) =>
                .error ("There is no loop labeled `" ++ l ++ "`")
              | .ContinueLoop (some l) =>
                .error ("There is no loop labeled `" ++ l ++ "`")
              | _ =>
                match popFn s₅ name with
                | .error err => .error err
                | .ok s₆ =>
                  match f.returns, x with
                  | true, .Nothing =>
                    match s₆.stack.getLast? with
                    | some .Return => .error "Function did not return a value"
                    | none => .error "There is no value on the stack"
                    | some _ => .ok (s₆, .Something, .Continue)
                  | false, .Something =>
                    .error ("Function `" ++ f.name ++
                      "` should not return a value")
                  | true, .Something =>
                    match s₆.stack.getLast? with
                    | none => .error "There is no value on the stack"
                    | some .Return => .error "Function did not return a value"
                    | some _ => .ok (s₆, .Something, .Continue)
                  | false, .Nothing => .ok (s₆, .Nothing, .Continue)

termination_by structural fuel
/-- The built-in dispatch of `fn call` (the `None` arm of the function
table lookup), after the arguments are on the stack. -/
def callBuiltin (fuel : Nat) (name : String) (st lc : Nat) (s : Runtime) :
    Except String (Runtime × Expect) :=
  match name with
  | "clone" =>
    let s₁ := pushFn s name (st + 1) lc
    match popV s₁ with
    | none => .error "There is no value on the stack"
    | some (s₂, v) =>
      match resolveV s₂.stack v with
      | .error err => .error err
      | .ok v₀ =>
        match deepClone fuel v₀ s₂.stack with
        | .error err => .error err
        | .ok v' =>
          match popFn (pushV s₂ v') name with
          | .error err => .error err
          | .ok s₃ => .ok (s₃, .Something)
  | "println" =>
    -- Writing to stdout is not modelled; the value is popped.
    let s₁ := pushFn s name st lc
    match popV s₁ with
    | none => .error "There is no value on the stack"
    | some (s₂, _) =>
      match popFn s₂ name with
      | .error err => .error err
      | .ok s₃ => .ok (s₃, .Nothing)
  | "print" =>
    let s₁ := pushFn s name st lc
    match popV s₁ with
    | none => .error "There is no value on the stack"
    | some (s₂, _) =>
      match popFn s₂ name with
      | .error err => .error err
      | .ok s₃ => .ok (s₃, .Nothing)
  | "sqrt" | "sin" | "asin" | "cos" | "acos" | "tan" | "atan"
  | "exp" | "ln" | "log2" | "log10" =>
    .error "builtin not modelled: transcendental float function"
  | "sleep" =>
    -- The blocking wait is not modelled; the argument pop and its type
    -- check are.
    let s₁ := pushFn s name st lc
    match popV s₁ with
    | some (s₂, .F64 _) =>
      match popFn s₂ name with
      | .error err => .error err
      | .ok s₃ => .ok (s₃, .Nothing)
    | some _ => .error "Expected number"
    | none => .error "There is no value on the stack"
  | "random" => .error "builtin not modelled: nondeterministic"
  | "round" =>
    -- `f64::round` is the identity on the integer abstraction.
    let s₁ := pushFn s name (st + 1) lc
    match popV s₁ with
    | some (s₂, .F64 v) =>
      match popFn (pushV s₂ (.F64 v)) name with
      | .error err => .error err
      | .ok s₃ => .ok (s₃, .Something)
    | some _ => .error "Expected number"
    | none => .error "There is no value on the stack"
  | "len" =>
    let s₁ := pushFn s name (st + 1) lc
    match popV s₁ with
    | none => .error "There is no value on the stack"
    | some (s₂, v) =>
      match resolveV s₂.stack v with
      | .error err => .error err
      | .ok (.Array arr) =>
        match popFn (pushV s₂ (.F64 arr.length)) name with
        | .error err => .error err
        | .ok s₃ => .ok (s₃, .Something)
      | .ok _ => .error "Expected array"
  | "read_line" => .error "builtin not modelled: stdin"
  | "read_number" => .error "builtin not modelled: stdin"
  | "trim_right" =>
    let s₁ := pushFn s name (st + 1) lc
    match popV s₁ with
    | some (s₂, .Text t) =>
      let t' : String := ⟨(t.data.reverse.dropWhile Char.isWhitespace).reverse⟩
      match popFn (pushV s₂ (.Text t')) name with
      | .error err => .error err
      | .ok s₃ => .ok (s₃, .Something)
    | some _ => .error "Expected text"
    | none => .error "There is no value on the stack"
  | "to_string" =>
    let s₁ := pushFn s name (st + 1) lc
    match popV s₁ with
    | none => .error "There is no value on the stack"
    | some (s₂, v) =>
      match resolveV s₂.stack v with
      | .error err => .error err
      | .ok (.Text t) =>
        match popFn (pushV s₂ (.Text t)) name with
        | .error err => .error err
        | .ok s₃ => .ok (s₃, .Something)
      | .ok (.F64 v') =>
        match popFn (pushV s₂ (.Text (toString v'))) name with
        | .error err => .error err
        | .ok s₃ => .ok (s₃, .Something)
      | .ok _ => .error "not implemented"
  | "debug" =>
    -- Diagnostic printing is not modelled.
    match popFn (pushFn s name st lc) name with
    | .error err => .error err
    | .ok s₁ => .ok (s₁, .Nothing)
  | "backtrace" =>
    match popFn (pushFn s name st lc) name with
    | .error err => .error err
    | .ok s₁ => .ok (s₁, .Nothing)
  | _ => .error ("Unknown function `" ++ name ++ "`")
/-- `fn assign_specific`.  The `Assign` (`:=`) branch: evaluate the right
side, pop it with a shallow `Ref` dereference, then either write through a
`LeftInsert(true)` resolution of the left side (non-empty path) or push a
fresh local binding (bare name).  The updating branch (`=` and compound
operators): evaluate right then left in `LeftInsert(false)` mode, pop the
handle and the value, normalize the handle and dispatch on types. -/
def assignSpecific (fuel : Nat) (op : AssignOp) (left right : Expression)
    (s : Runtime) : Except String (Runtime × Flow) :=
  match fuel with
  | 0 => .error "out of fuel"
  | n + 1 =>
    if op = .Assign then
      match left with
      | .Item name ids =>
        match evalExpr n right .Right s with
        | .error err => .error err
        | .ok (s₁, _, .Return) => .ok (s₁, .Return)
        | .ok (s₁, .Something, .Continue) =>
          match popDeref s₁ with
          | .error err => .error err
          | .ok (s₂, v) =>
            if ids.length ≠ 0 then
              match evalExpr n left (.LeftInsert true) s₂ with
              | .error err => .error err
              | .ok (s₃, _, .Return) => .ok (s₃, .Return)
              | .ok (s₃, .Something, .Continue) =>
                match popV s₃ with
                | some (s₄, .UnsafeRef p) =>
                  match writePtr s₄.stack p v with
                  | some stack' =>
                    .ok ({ s₄ with stack := stack' }, .Continue)
                  | none => .error "invalid reference"
                | none => .error "There is no value on the stack"
                | some _ => .error "Expected unsafe reference"
              | .ok _ => .error "Expected something from the left side"
            else
              .ok ({ s₂ with
                local_stack := s₂.local_stack ++ [(name, s₂.stack.length)],
                stack := s₂.stack ++ [v] }, .Continue)
        | .ok _ => .error "Expected something from the right side"
      | _ => .error "Expected item"
    else
      -- Evaluate right side before left because the left leaves a raw
      -- pointer on the stack which might point to the wrong place if the
      -- right side has side effects affecting it.
      match evalExpr n right .Right s with
      | .error err => .error err
      | .ok (s₁, _, .Return) => .ok (s₁, .Return)
      | .ok (s₁, .Something, .Continue) =>
        match evalExpr n left (.LeftInsert false) s₁ with
        | .error err => .error err
        | .ok (s₂, _, .Return) => .ok (s₂, .Return)
        | .ok (s₂, .Something, .Continue) =>
          match popV s₂ with
          | none => .error "Expected two variables on the stack"
          | some (s₃, a) =>
            match popV s₃ with
            | none => .error "Expected two variables on the stack"
            | some (s₄, b) =>
              match normalizeTarget s₄.stack a with
              | .error err => .error err
              | .ok (stack₁, r) =>
                match resolveV stack₁ b with
                | .error err => .error err
                | .ok bres =>
                  match updateThroughRef op stack₁ r b bres with
                  | .error err => .error err
                  | .ok stack₂ =>
                    .ok ({ s₄ with stack := stack₂ }, .Continue)
        | .ok _ => .error "Expected something from the left side"
      | .ok _ => .error "Expected something from the right side"

termination_by structural fuel
/-- The bracket-expression pre-evaluation loop of `fn item`:
`Id::Expression` subtrees are evaluated on the `Right` side in order, their
productions and flows ignored. -/
def evalIdExprs (fuel : Nat) (ids : List Id) (s : Runtime) :
    Except String Runtime :=
  match fuel with
  | 0 => .error "out of fuel"
  | n + 1 =>
    match ids with
    | [] => .ok s
    | .Expression e :: rest =>
      match evalExpr n e .Right s with
      | .error err => .error err
      | .ok (s', _, _) => evalIdExprs n rest s'
    | _ :: rest => evalIdExprs n rest s

termination_by structural fuel
/-- `fn item`.  With an empty id path: search the current frame's locals
newest-first and push a `Ref`; an unknown name panics.  With a non-empty
path: pre-evaluate the bracket expressions, search the locals, walk the
path from the (once-dereferenced) local slot, truncate the stack back to
the pre-evaluation base and push either a shallow structural clone
(`Right`) or an `UnsafeRef` handle (`LeftInsert`).  When the name is not
found the source's search loop falls through and returns without pushing
anything or raising an error. -/
def itemEval (fuel : Nat) (name : String) (ids : List Id) (side : Side)
    (s : Runtime) : Except String Runtime :=
  match fuel with
  | 0 => .error "out of fuel"
  | n + 1 =>
    if ids.length = 0 then
      match findLocal s name with
      | .error err => .error err
      | .ok (some id) => .ok (pushV s (.Ref id))
      | .ok none =>
        .error ("Could not find local variable `" ++ name ++ "`")
    else
      let startLen := s.stack.length
      match evalIdExprs n ids s with
      | .error err => .error err
      | .ok s₁ =>
        let ins := match side with
          | .Right => false
          | .LeftInsert i => i
        match findLocal s₁ name with
        | .error err => .error err
        | .ok none => .ok s₁
        | .ok (some id) =>
          -- Resolve reference of local variable.
          match s₁.stack[id]? with
          | none => .error "index out of bounds"
          | some v =>
            let id₀ := refTargetD v id
            match itemWalk s₁.stack ⟨id₀, []⟩ ids startLen 0 ins with
            | .error err => .error err
            | .ok (stack₂, ptr, _) =>
              match side with
              | .Right =>
                match readPtr stack₂ ptr with
                | none => .error "invalid reference"
                | some v' =>
                  .ok { s₁ with stack := stack₂.take startLen ++ [v'] }
              | .LeftInsert _ =>
                .ok { s₁ with
                  stack := stack₂.take startLen ++ [.UnsafeRef ptr] }

termination_by structural fuel
/-- `fn compare`. -/
def compareEval (fuel : Nat) (op : CompareOp) (l r : Expression)
    (s : Runtime) : Except String (Runtime × Flow) :=
  match fuel with
  | 0 => .error "out of fuel"
  | n + 1 =>
    match evalExpr n l .Right s with
    | .error err => .error err
    | .ok (s₁, _, .Return) => .ok (s₁, .Return)
    | .ok (s₁, .Something, .Continue) =>
      match evalExpr n r .Right s₁ with
      | .error err => .error err
      | .ok (s₂, _, .Return) => .ok (s₂, .Return)
      | .ok (s₂, .Something, .Continue) =>
        match popV s₂ with
        | none => .error "Expected two variables on the stack"
        | some (s₃, b) =>
          match popV s₃ with
          | none => .error "Expected two variables on the stack"
          | some (s₄, a) =>
            match resolveV s₄.stack b, resolveV s₄.stack a with
            | .error err, _ => .error err
            | _, .error err => .error err
            | .ok rb, .ok ra =>
              match rb, ra with
              | .F64 bn, .F64 an =>
                let v := match op with
                  | .Less => decide (an < bn)
                  | .LessOrEqual => decide (an ≤ bn)
                  | .Greater => decide (an > bn)
                  | .GreaterOrEqual => decide (an ≥ bn)
                  | .Equal => decide (an = bn)
                  | .NotEqual => decide (an ≠ bn)
                .ok (pushV s₄ (.Bool v), .Continue)
              | .Text bt, .Text at' =>
                let c := compare at' bt
                let v : Bool := match op with
                  | .Less => c == Ordering.lt
                  | .LessOrEqual => c != Ordering.gt
                  | .Greater => c == Ordering.gt
                  | .GreaterOrEqual => c != Ordering.lt
                  | .Equal => at' == bt
                  | .NotEqual => at' != bt
                .ok (pushV s₄ (.Bool v), .Continue)
              | .Bool bb, .Bool ab =>
                match op with
                | .Less => .error "`<` can not be used with bools"
                | .LessOrEqual => .error "`<=` can not be used with bools"
                | .Greater => .error "`>` can not be used with bools"
                | .GreaterOrEqual => .error "`>=` can not be used with bools"
                | .Equal => .ok (pushV s₄ (.Bool (ab == bb)), .Continue)
                | .NotEqual => .ok (pushV s₄ (.Bool (ab != bb)), .Continue)
              | _, _ => .error "Invalid type"
      | .ok _ => .error "Expected something from the right argument"
    | .ok _ => .error "Expected something from the left argument"

termination_by structural fuel
/-- `fn if_expr`: requires a literal `Bool` on top of the stack (the
source pops and matches `Variable::Bool` without resolving a `Ref`). -/
def ifExpr (fuel : Nat) (cond : Expression) (tb : List Expression)
    (eb : Option (List Expression)) (s : Runtime) :
    Except String (Runtime × Expect × Flow) :=
  match fuel with
  | 0 => .error "out of fuel"
  | n + 1 =>
    match evalExpr n cond .Right s with
    | .error err => .error err
    | .ok (s₁, x, .Return) => .ok (s₁, x, .Return)
    | .ok (s₁, .Something, .Continue) =>
      match popV s₁ with
      | none => .error "There is no value on the stack"
      | some (s₂, .Bool val) =>
        if val then evalBlock n tb s₂
        else
          match eb with
          | some b => evalBlock n b s₂
          | none => .ok (s₂, .Nothing, .Continue)
      | some _ => .error "Expected bool"
    | .ok _ => .error "Expected bool from if condition"

termination_by structural fuel
/-- `fn unop`: the operand is evaluated with the same side tag; boolean
NOT. -/
def unopEval (fuel : Nat) (op : UnOp) (e : Expression) (side : Side)
    (s : Runtime) : Except String (Runtime × Flow) :=
  match fuel with
  | 0 => .error "out of fuel"
  | n + 1 =>
    match evalExpr n e side s with
    | .error err => .error err
    | .ok (s₁, _, .Return) => .ok (s₁, .Return)
    | .ok (s₁, .Something, .Continue) =>
      match popV s₁ with
      | none => .error "Expected unary argument"
      | some (s₂, v) =>
        match resolveV s₂.stack v with
        | .error err => .error err
        | .ok (.Bool b) =>
          match op with
          | .Neg => .ok (pushV s₂ (.Bool (!b)), .Continue)
        | .ok _ => .error "Invalid type, expected bool"
    | .ok _ => .error "Expected something from unary argument"

termination_by structural fuel
/-- `fn binop`: both operands are evaluated with the incoming side tag;
numbers get arithmetic, booleans get `||`/`&& !`/`&&`/`^`, texts get
concatenation under `Add`. -/
def binopEval (fuel : Nat) (op : BinOp) (l r : Expression) (side : Side)
    (s : Runtime) : Except String (Runtime × Flow) :=
  match fuel with
  | 0 => .error "out of fuel"
  | n + 1 =>
    match evalExpr n l side s with
    | .error err => .error err
    | .ok (s₁, _, .Return) => .ok (s₁, .Return)
    | .ok (s₁, .Something, .Continue) =>
      match evalExpr n r side s₁ with
      | .error err => .error err
      | .ok (s₂, _, .Return) => .ok (s₂, .Return)
      | .ok (s₂, .Something, .Continue) =>
        match popV s₂ with
        | none => .error "Expected right argument"
        | some (s₃, rv) =>
          match popV s₃ with
          | none => .error "Expected left argument"
          | some (s₄, lv) =>
            match resolveV s₄.stack lv, resolveV s₄.stack rv with
            | .error err, _ => .error err
            | _, .error err => .error err
            | .ok la, .ok ra =>
              match la, ra with
              | .F64 a, .F64 b =>
                let v := match op with
                  | .Add => a + b
                  | .Sub => a - b
                  | .Mul => a * b
                  | .Div => a / b
                  | .Rem => a % b
                  | .Pow => a ^ b.toNat
                .ok (pushV s₄ (.F64 v), .Continue)
              | .Bool a, .Bool b =>
                match op with
                | .Add => .ok (pushV s₄ (.Bool (a || b)), .Continue)
                -- Boolean subtraction with lazy precedence.
                | .Sub => .ok (pushV s₄ (.Bool (a && !b)), .Continue)
                | .Mul => .ok (pushV s₄ (.Bool (a && b)), .Continue)
                | .Pow => .ok (pushV s₄ (.Bool (xor a b)), .Continue)
                | _ => .error "Unknown boolean operator"
              | .Text a, .Text b =>
                match op with
                | .Add => .ok (pushV s₄ (.Text (a ++ b)), .Continue)
                | _ => .error "This operation can not be used with strings"
              | .Text _, _ =>
                .error
                  "The right argument must be a string. Try the `to_string` function"
              | _, _ =>
                .error "Invalid type, expected numbers, bools or strings"
      | .ok _ => .error "Expected something from right argument"
    | .ok _ => .error "Expected something from left argument"

termination_by structural fuel
/-- `fn for_expr`: record the prior heights, evaluate `init` (its flow is
discarded), record the post-init heights and enter the loop. -/
def forExpr (fuel : Nat) (label : Option String)
    (init cond step : Expression) (block : List Expression) (s : Runtime) :
    Except String (Runtime × Flow) :=
  match fuel with
  | 0 => .error "out of fuel"
  | n + 1 =>
    let prevSt := s.stack.length
    let prevLc := s.local_stack.length
    match evalExpr n init .Right s with
    | .error err => .error err
    | .ok (s₁, _, _) =>
      forLoop n label cond step block prevSt prevLc
        s₁.stack.length s₁.local_stack.length s₁


termination_by structural fuel
def forLoop (fuel : Nat) (label : Option String) (cond step : Expression)
    (block : List Expression) (prevSt prevLc st lc : Nat) (s : Runtime) :
    Except String (Runtime × Flow) :=
  match fuel with
  | 0 => .error "out of fuel"
  | n + 1 =>
    match forStep n label cond step block prevSt prevLc st lc s with
    | .error err => .error err
    | .ok (.again s') =>
      forLoop n label cond step block prevSt prevLc st lc s'
    | .ok (.done s' fl) => .ok (s', fl)

termination_by structural fuel
/-- One pass of the `loop` body in `fn for_expr`.  The `continue` taken
after an absorbed `ContinueLoop` jumps straight back to the condition,
skipping the end-of-iteration truncation; an iteration completing with
`Continue` flow runs `step` and then truncates both stacks to the
post-init heights; all loop exits except `Return` truncate to the prior
heights.  The flows of `cond` and `step` are discarded. -/
def forStep (fuel : Nat) (label : Option String) (cond step : Expression)
    (block : List Expression) (prevSt prevLc st lc : Nat) (s : Runtime) :
    Except String LoopStep :=
  match fuel with
  | 0 => .error "out of fuel"
  | n + 1 =>
    match evalExpr n cond .Right s with
    | .error err => .error err
    | .ok (s₀, _, _) =>
      match popV s₀ with
      | none => .error "There is no value on the stack"
      | some (s₁, .Bool val) =>
        if val then
          match evalBlock n block s₁ with
          | .error err => .error err
          | .ok (s₂, _, .Return) => .ok (.done s₂ .Return)
          | .ok (s₂, _, .Continue) =>
            match evalExpr n step .Right s₂ with
            | .error err => .error err
            | .ok (s₃, _, _) => .ok (.again (truncStacks s₃ st lc))
          | .ok (s₂, _, .Break x) =>
            let fl := match x with
              | some l => if label = some l then Flow.Continue
                  else Flow.Break (some l)
              | none => Flow.Continue
            .ok (.done (truncStacks s₂ prevSt prevLc) fl)
          | .ok (s₂, _, .ContinueLoop x) =>
            match x with
            | some l =>
              if label = some l then
                match evalExpr n step .Right s₂ with
                | .error err => .error err
                | .ok (s₃, _, _) => .ok (.again s₃)
              else
                .ok (.done (truncStacks s₂ prevSt prevLc)
                  (.ContinueLoop (some l)))
            | none =>
              match evalExpr n step .Right s₂ with
              | .error err => .error err
              | .ok (s₃, _, _) => .ok (.again s₃)
        else .ok (.done (truncStacks s₁ prevSt prevLc) .Continue)
      | some _ => .error "Expected bool"

termination_by structural fuel
end

/-! ## Derived predicates and example states -/

mutual
/-- Whether a value contains a `Variable.Ref` (stack reference) anywhere. -/
def containsRef : Variable → Bool
  | .Ref _ => true
  | .Object obj => containsRefObj obj
  | .Array arr => containsRefArr arr
  | _ => false

def containsRefObj : List (String × Variable) → Bool
  | [] => false
  | (_, v) :: rest => containsRef v || containsRefObj rest

def containsRefArr : List Variable → Bool
  | [] => false
  | v :: rest => containsRef v || containsRefArr rest
end

/-- One `main` frame holding a single local `o` bound to an empty object. -/
def exObj : Runtime :=
  { stack := [.Object []], call_stack := [("main", 0, 0)],
    local_stack := [("o", 0)], functions := [] }

/-- One `main` frame with no locals at all. -/
def exEmpty : Runtime :=
  { stack := [], call_stack := [("main", 0, 0)], local_stack := [],
    functions := [] }

/-! ## C1: which updating operator may insert an absent object key -/

/-- C1 (counterexample): contrary to the claim, the plain `=` operator
(`AssignOp.Set`) does *not* resolve its left side in `LeftInsert(true)`
mode: assigning through the path `o.x` with `x` absent from the object `o`
fails with the missing-key error instead of inserting the key. -/
theorem c1_set_insert_fails :
    evalExpr 9 (.Assign .Set (.Item "o" [.String "x"]) (.Number 1)) .Right
      exObj = .error "Object has no key `x`" := rfl

/-- C1 (amended): among the assignment operators, key insertion on an
absent last-segment object key is allowed exactly for the declaring
operator `:=` (`AssignOp.Assign`), which resolves the left side in
`LeftInsert(true)` mode and succeeds by inserting a fresh `Return`
sentinel; `=` (`Set`) and every compound operator resolve the left side in
`LeftInsert(false)` mode, so the absent key is an error.  First conjunct:
`item_lookup` on an object with a vacant key inserts the sentinel exactly
when `insert && last` and errors otherwise.  Second and third conjuncts:
the per-operator behaviour of the assignment itself on `o = {}`. -/
theorem c1_insertion_policy :
    (∀ (obj : List (String × Variable)) (key : String) (j : Nat)
        (ins lastSeg : Bool),
      lookupKey obj key = none →
      itemLookup [.Object obj] ⟨0, []⟩ (.String key) 0 j ins lastSeg
        = if ins && lastSeg then
            .ok ([.Object (obj ++ [(key, .Return)])], ⟨0, [.key key]⟩, j)
          else .error ("Object has no key `" ++ key ++ "`"))
  ∧ (∀ op : AssignOp,
      op ∈ [AssignOp.Set, .Add, .Sub, .Mul, .Div, .Rem, .Pow] →
      evalExpr 9 (.Assign op (.Item "o" [.String "x"]) (.Number 1)) .Right
        exObj = .error "Object has no key `x`")
  ∧ evalExpr 9 (.Assign .Assign (.Item "o" [.String "x"]) (.Number 1))
      .Right exObj
      = .ok ({ exObj with stack := [.Object [("x", .F64 1)]] },
          .Nothing, .Continue) := by
  refine ⟨?_, ?_, rfl⟩
  · intro obj key j ins lastSeg h
    have hr : readPtr [Variable.Object obj] ⟨0, []⟩ = some (.Object obj) :=
      rfl
    simp only [itemLookup, hr, h]
    cases ins <;> cases lastSeg <;> simp [writePtr, setPath]
  · intro op hop
    fin_cases hop <;> rfl

/-- C1 (witness for `c1_insertion_policy`). -/
theorem c1_insertion_policy_witness :
    itemLookup [.Object []] ⟨0, []⟩ (.String "x") 0 0 true true
      = .ok ([.Object [("x", .Return)]], ⟨0, [.key "x"]⟩, 0)
  ∧ evalExpr 9 (.Assign .Add (.Item "o" [.String "x"]) (.Number 1)) .Right
      exObj = .error "Object has no key `x`" := by
  refine ⟨?_, c1_insertion_policy.2.1 .Add (by simp)⟩
  have h := c1_insertion_policy.1 [] "x" 0 true true rfl
  simpa using h

/-! ## C2: the declaring assignment `:=` -/

/-- C2 (counterexample): contrary to the claim, `:=` (`AssignOp.Assign`)
with a non-empty id path does not fail: `o.x := 7` on `o = {}` succeeds,
resolving the left side in `LeftInsert(true)` mode and inserting the key. -/
theorem c2_declare_through_path_succeeds :
    evalExpr 9 (.Assign .Assign (.Item "o" [.String "x"]) (.Number 7))
      .Right exObj
      = .ok ({ exObj with stack := [.Object [("x", .F64 7)]] },
          .Nothing, .Continue) := rfl

/-- C2 (amended): a bare-name `:=` always pushes the (once shallowly
dereferenced) right value and appends a fresh binding
`(name, stack_top_index)` to the local stack, shadowing earlier bindings
of the same name (a newest-first search finds the new binding first, third
conjunct); a `:=` whose left side has a non-empty path does not fail but
writes the value through the `LeftInsert(true)`-resolved handle. -/
theorem c2_declaring_assign :
    (∀ (n : Nat) (name : String) (rhs : Expression) (s s₁ s₂ : Runtime)
        (v : Variable),
      evalExpr n rhs .Right s = .ok (s₁, .Something, .Continue) →
      popDeref s₁ = .ok (s₂, v) →
      assignSpecific (n + 1) .Assign (.Item name []) rhs s
        = .ok ({ s₂ with
            local_stack := s₂.local_stack ++ [(name, s₂.stack.length)],
            stack := s₂.stack ++ [v] }, .Continue))
  ∧ (∀ (n : Nat) (name : String) (ids : List Id) (rhs : Expression)
        (s s₁ s₂ s₃ s₄ : Runtime) (v : Variable) (p : Pointer)
        (stack' : List Variable),
      ids.length ≠ 0 →
      evalExpr n rhs .Right s = .ok (s₁, .Something, .Continue) →
      popDeref s₁ = .ok (s₂, v) →
      evalExpr n (.Item name ids) (.LeftInsert true) s₂
        = .ok (s₃, .Something, .Continue) →
      popV s₃ = some (s₄, .UnsafeRef p) →
      writePtr s₄.stack p v = some stack' →
      assignSpecific (n + 1) .Assign (.Item name ids) rhs s
        = .ok ({ s₄ with stack := stack' }, .Continue))
  ∧ (∀ (ls : List (String × Nat)) (name : String) (i k : Nat),
      ((ls ++ [(name, i)]).reverse.take (k + 1)).find?
        (fun p => p.1 = name) = some (name, i)) := by
  refine ⟨?_, ?_, ?_⟩
  · intro n name rhs s s₁ s₂ v h₁ h₂
    simp [assignSpecific, h₁, h₂]
  · intro n name ids rhs s s₁ s₂ s₃ s₄ v p stack' hids h₁ h₂ h₃ h₄ h₅
    simp [assignSpecific, h₁, h₂, h₃, h₄, h₅, hids]
  · intro ls name i k
    simp [List.reverse_append, List.find?]

/-- C2 (witness for `c2_declaring_assign`): `y := 3` in the empty frame
creates the binding `("y", 0)` and pushes the value. -/
theorem c2_declaring_assign_witness :
    assignSpecific 9 .Assign (.Item "y" []) (.Number 3) exEmpty
      = .ok ({ exEmpty with local_stack := [("y", 0)], stack := [.F64 3] },
          .Continue) := by
  have h := c2_declaring_assign.1 8 "y" (.Number 3) exEmpty
    (pushV exEmpty (.F64 3)) exEmpty (.F64 3) rfl rfl
  simpa [exEmpty, pushV] using h

/-! ## C5: unknown locals -/

/-- C5 (divergence witness): an `Item` with an unknown name and an empty
id path fails with the unknown-local error, but an `Item` with an unknown
name and a *non-empty* id path silently succeeds: the search loop in
`fn item` falls through, returning without pushing anything and without
an error, and `fn expression` still reports `(Something, Continue)`. -/
theorem c5_unknown_local_divergence :
    evalExpr 9 (.Item "x" []) .Right exEmpty
      = .error "Could not find local variable `x`"
  ∧ evalExpr 9 (.Item "x" [.String "y"]) .Right exEmpty
      = .ok (exEmpty, .Something, .Continue) :=
  ⟨rfl, rfl⟩

/-! ## C6: what a Right-side path read pushes -/

/-- Locals `a ↦ F64 7` and `b ↦ Array [StackRef(a)]` (an array literal
`[a]` stores the stack reference the item read of `a` pushed). -/
def exRefArr : Runtime :=
  { stack := [.F64 7, .Array [.Ref 0]], call_stack := [("main", 0, 0)],
    local_stack := [("a", 0), ("b", 1)], functions := [] }

/-- C6 (counterexample): a successful Right-side read of `b[0]` pushes the
raw slot content `Ref 0` — a value that *is* a StackRef — rather than a
deep clone; the deep clone of that slot would have been `F64 7`. -/
theorem c6_right_read_keeps_refs :
    evalExpr 9 (.Item "b" [.F64 0]) .Right exRefArr
      = .ok (pushV exRefArr (.Ref 0), .Something, .Continue)
  ∧ containsRef (.Ref 0) = true
  ∧ deepClone 9 (.Ref 0) exRefArr.stack = .ok (.F64 7) :=
  ⟨rfl, rfl, rfl⟩

/-- C6 (amended): a successful Right-side `Item` read through a non-empty
path truncates the value stack to the pre-evaluation base (discarding the
bracket-expression results) and pushes the *exact* structural content of
the resolved slot — the shallow Rust `clone()`, under which `Ref`
variants inside the value, including a last-segment `Ref` itself, are
preserved rather than dereferenced or deep-cloned. -/
theorem c6_item_right_structural_copy
    (n : Nat) (name : String) (ids : List Id) (s s₁ : Runtime)
    (id id₀ : Nat) (v w : Variable) (stack₂ : List Variable) (p : Pointer)
    (j : Nat)
    (hids : ids.length ≠ 0)
    (hpre : evalIdExprs n ids s = .ok s₁)
    (hfind : findLocal s₁ name = .ok (some id))
    (hslot : s₁.stack[id]? = some v)
    (hderef : refTargetD v id = id₀)
    (hwalk : itemWalk s₁.stack ⟨id₀, []⟩ ids s.stack.length 0 false
      = .ok (stack₂, p, j))
    (hread : readPtr stack₂ p = some w) :
    itemEval (n + 1) name ids .Right s
      = .ok { s₁ with stack := stack₂.take s.stack.length ++ [w] } := by
  simp [itemEval, hids, hpre, hfind, hslot, hderef, hwalk, hread]

/-- C6 (witness for `c6_item_right_structural_copy`): the `b[0]` read of
the counterexample instantiates the amended statement. -/
theorem c6_item_right_structural_copy_witness :
    itemEval 9 "b" [.F64 0] .Right exRefArr
      = .ok { exRefArr with
          stack := exRefArr.stack.take 2 ++ [.Ref 0] } :=
  c6_item_right_structural_copy 8 "b" [.F64 0] exRefArr exRefArr 1 1
    (.Array [.Ref 0]) (.Ref 0) exRefArr.stack ⟨1, [.idx 0]⟩ 0
    (by decide) rfl rfl rfl rfl rfl rfl

/-! ## C8: the If condition -/

/-- One `main` frame with the local `b` bound to `Bool true`. -/
def exBoolLocal : Runtime :=
  { stack := [.Bool true], call_stack := [("main", 0, 0)],
    local_stack := [("b", 0)], functions := [] }

/-- C8 (counterexample): contrary to the claim, a condition that is a bare
variable read of a `Bool` local fails: the item read pushes a `StackRef`
to the Bool, and `fn if_expr` pops and matches `Variable::Bool` without
resolving the reference, so it panics `Expected bool`. -/
theorem c8_ref_cond_fails :
    evalExpr 9 (.If (.Item "b" []) [.Number 1] none) .Right exBoolLocal
      = .error "Expected bool" := rfl

/-- C8 (amended): when the condition evaluates with `Continue` flow and
leaves a *literal* `Bool` on top of the stack, the true-block runs on
`true`, the else-block on `false` when present, and otherwise the If
yields `(Nothing, Continue)`; a popped condition value that is not a
literal `Bool` — including a `StackRef` to a Bool — is the error
`Expected bool`. -/
theorem c8_if_semantics :
    (∀ (n : Nat) (cond : Expression) (tb : List Expression)
        (eb : Option (List Expression)) (s s₁ s₂ : Runtime),
      evalExpr n cond .Right s = .ok (s₁, .Something, .Continue) →
      popV s₁ = some (s₂, .Bool true) →
      ifExpr (n + 1) cond tb eb s = evalBlock n tb s₂)
  ∧ (∀ (n : Nat) (cond : Expression) (tb b : List Expression)
        (s s₁ s₂ : Runtime),
      evalExpr n cond .Right s = .ok (s₁, .Something, .Continue) →
      popV s₁ = some (s₂, .Bool false) →
      ifExpr (n + 1) cond tb (some b) s = evalBlock n b s₂)
  ∧ (∀ (n : Nat) (cond : Expression) (tb : List Expression)
        (s s₁ s₂ : Runtime),
      evalExpr n cond .Right s = .ok (s₁, .Something, .Continue) →
      popV s₁ = some (s₂, .Bool false) →
      ifExpr (n + 1) cond tb none s = .ok (s₂, .Nothing, .Continue))
  ∧ (∀ (n : Nat) (cond : Expression) (tb : List Expression)
        (eb : Option (List Expression)) (s s₁ s₂ : Runtime) (i : Nat),
      evalExpr n cond .Right s = .ok (s₁, .Something, .Continue) →
      popV s₁ = some (s₂, .Ref i) →
      ifExpr (n + 1) cond tb eb s = .error "Expected bool") := by
  refine ⟨?_, ?_, ?_, ?_⟩ <;> intro n cond tb
  · intro eb s s₁ s₂ h₁ h₂
    simp [ifExpr, h₁, h₂]
  · intro b s s₁ s₂ h₁ h₂
    simp [ifExpr, h₁, h₂]
  · intro s s₁ s₂ h₁ h₂
    simp [ifExpr, h₁, h₂]
  · intro eb s s₁ s₂ i h₁ h₂
    simp [ifExpr, h₁, h₂]

/-- C8 (witness for `c8_if_semantics`). -/
theorem c8_if_semantics_witness :
    ifExpr 9 (.Bool true) [.Number 1] none exEmpty
      = evalBlock 8 [.Number 1] exEmpty :=
  c8_if_semantics.1 8 (.Bool true) [.Number 1] none exEmpty
    (pushV exEmpty (.Bool true)) exEmpty rfl rfl

/-! ## C9: binary operators on two Bools -/

/-- C9: on two `Bool` operands, `+` is logical OR, `-` is `a AND (NOT b)`,
`*` is logical AND, `**` is exclusive OR, and `/` or `%` is the
`Unknown boolean operator` error. -/
theorem c9_bool_binops (a b : Bool) (s : Runtime) :
    binopEval 3 .Add (.Bool a) (.Bool b) .Right s
      = .ok (pushV s (.Bool (a || b)), .Continue)
  ∧ binopEval 3 .Sub (.Bool a) (.Bool b) .Right s
      = .ok (pushV s (.Bool (a && !b)), .Continue)
  ∧ binopEval 3 .Mul (.Bool a) (.Bool b) .Right s
      = .ok (pushV s (.Bool (a && b)), .Continue)
  ∧ binopEval 3 .Pow (.Bool a) (.Bool b) .Right s
      = .ok (pushV s (.Bool (xor a b)), .Continue)
  ∧ binopEval 3 .Div (.Bool a) (.Bool b) .Right s
      = .error "Unknown boolean operator"
  ∧ binopEval 3 .Rem (.Bool a) (.Bool b) .Right s
      = .error "Unknown boolean operator" := by
  refine ⟨?_, ?_, ?_, ?_, ?_, ?_⟩ <;>
    simp [binopEval, evalExpr, popV, pushV, resolveV, List.getLast?_concat,
      List.dropLast_concat]

/-! ## C3: For-loop stack discipline -/

/-- A loop body that declares a local and then continues:
`{ x := 1; continue }`. -/
def exContinueBlock : List Expression :=
  [.Assign .Assign (.Item "x" []) (.Number 1), .Continue none]

/-- C3 (counterexample): an iteration whose body ends in an absorbed
`continue` runs `step` and re-enters the condition *without* truncating
the stacks: with post-init heights `st = 0, lc = 0`, the next-iteration
state keeps the body's local binding and both pushed values (heights 2 and
1), so no next-iteration state with the post-init heights exists. -/
theorem c3_continue_skips_truncation :
    forStep 9 none (.Bool true) (.Number 7) exContinueBlock 0 0 0 0 exEmpty
      = .ok (.again { exEmpty with
          stack := [.F64 1, .F64 7], local_stack := [("x", 0)] })
  ∧ ¬ ∃ s' : Runtime,
      forStep 9 none (.Bool true) (.Number 7) exContinueBlock 0 0 0 0
          exEmpty = .ok (.again s')
        ∧ s'.stack.length = 0 ∧ s'.local_stack.length = 0 := by
  refine ⟨rfl, ?_⟩
  rintro ⟨s', hs, h1, h2⟩
  rw [show forStep 9 none (.Bool true) (.Number 7) exContinueBlock 0 0 0 0
        exEmpty
      = .ok (.again { exEmpty with
          stack := [.F64 1, .F64 7], local_stack := [("x", 0)] })
    from rfl] at hs
  simp only [Except.ok.injEq, LoopStep.again.injEq] at hs
  subst hs
  simp at h1

/-- C3 (amended): per-iteration stack discipline of the For loop.
(1) An iteration whose body completes with `Continue` flow evaluates
`step` and then truncates both stacks to the post-init heights before the
condition is re-evaluated.  (2) An iteration whose body ends in an
absorbed unlabeled `ContinueLoop` evaluates `step` but re-enters the
condition *without* truncating.  (3) Exiting because the condition is
false truncates both stacks to the pre-init heights.  (4) Exiting on
`Return` flow from the body performs no truncation at all. -/
theorem c3_for_stack_discipline :
    (∀ (n : Nat) (label : Option String) (cond step : Expression)
        (block : List Expression) (prevSt prevLc st lc : Nat)
        (s s₀ s₁ s₂ s₃ : Runtime) (x e x₂ : Expect) (f f₂ : Flow),
      evalExpr n cond .Right s = .ok (s₀, x, f) →
      popV s₀ = some (s₁, .Bool true) →
      evalBlock n block s₁ = .ok (s₂, e, .Continue) →
      evalExpr n step .Right s₂ = .ok (s₃, x₂, f₂) →
      forStep (n + 1) label cond step block prevSt prevLc st lc s
        = .ok (.again (truncStacks s₃ st lc)))
  ∧ (∀ (n : Nat) (label : Option String) (cond step : Expression)
        (block : List Expression) (prevSt prevLc st lc : Nat)
        (s s₀ s₁ s₂ s₃ : Runtime) (x e x₂ : Expect) (f f₂ : Flow),
      evalExpr n cond .Right s = .ok (s₀, x, f) →
      popV s₀ = some (s₁, .Bool true) →
      evalBlock n block s₁ = .ok (s₂, e, .ContinueLoop none) →
      evalExpr n step .Right s₂ = .ok (s₃, x₂, f₂) →
      forStep (n + 1) label cond step block prevSt prevLc st lc s
        = .ok (.again s₃))
  ∧ (∀ (n : Nat) (label : Option String) (cond step : Expression)
        (block : List Expression) (prevSt prevLc st lc : Nat)
        (s s₀ s₁ : Runtime) (x : Expect) (f : Flow),
      evalExpr n cond .Right s = .ok (s₀, x, f) →
      popV s₀ = some (s₁, .Bool false) →
      forStep (n + 1) label cond step block prevSt prevLc st lc s
        = .ok (.done (truncStacks s₁ prevSt prevLc) .Continue))
  ∧ (∀ (n : Nat) (label : Option String) (cond step : Expression)
        (block : List Expression) (prevSt prevLc st lc : Nat)
        (s s₀ s₁ s₂ : Runtime) (x e : Expect) (f : Flow),
      evalExpr n cond .Right s = .ok (s₀, x, f) →
      popV s₀ = some (s₁, .Bool true) →
      evalBlock n block s₁ = .ok (s₂, e, .Return) →
      forStep (n + 1) label cond step block prevSt prevLc st lc s
        = .ok (.done s₂ .Return)) := by
  refine ⟨?_, ?_, ?_, ?_⟩
  · intro n label cond step block prevSt prevLc st lc s s₀ s₁ s₂ s₃ x e x₂
      f f₂ hc hp hb hs
    simp [forStep, hc, hp, hb, hs]
  · intro n label cond step block prevSt prevLc st lc s s₀ s₁ s₂ s₃ x e x₂
      f f₂ hc hp hb hs
    simp [forStep, hc, hp, hb, hs]
  · intro n label cond step block prevSt prevLc st lc s s₀ s₁ x f hc hp
    simp [forStep, hc, hp]
  · intro n label cond step block prevSt prevLc st lc s s₀ s₁ s₂ x e f hc
      hp hb
    simp [forStep, hc, hp, hb]

/-- C3 (witness for `c3_for_stack_discipline`): a trivial iteration with
an empty body completing with `Continue`. -/
theorem c3_for_stack_discipline_witness :
    forStep 9 none (.Bool true) (.Number 0) [] 5 5 0 0 exEmpty
      = .ok (.again (truncStacks (pushV exEmpty (.F64 0)) 0 0)) :=
  c3_for_stack_discipline.1 8 none (.Bool true) (.Number 0) [] 5 5 0 0
    exEmpty (pushV exEmpty (.Bool true)) exEmpty exEmpty
    (pushV exEmpty (.F64 0)) .Something .Nothing .Something .Continue
    .Continue rfl rfl rfl rfl

/-! ## C7: labeled break and continue across nested loops -/

/-- The inner loop of the nested scenario: an unlabeled loop that would
run forever but immediately executes `break 'o`. -/
def innerPropFor : Expression :=
  .For none (.Number 0) (.Bool true) (.Number 0) [.Break (some "o")]

/-- The outer loop of the nested scenario: labeled `'o`, would also run
forever were the labeled break not absorbed here. -/
def outerPropFor : Expression :=
  .For (some "o") (.Number 0) (.Bool true) (.Number 0) [innerPropFor]

/-- C7: per-loop label dispatch, plus the nested end-to-end scenario.
(1) A body `Break (some L)` exits the loop, which yields `Continue` when
`L` matches the loop's own label and propagates `Break (some L)` outward
otherwise (in particular across unlabeled loops).  (2) An unlabeled
`Break` exits only the current loop.  (3) A `ContinueLoop (some L)` with a
non-matching (or absent) loop label exits the current loop and propagates.
(4) A `ContinueLoop` with a matching label (or no label) runs `step` and
continues the current loop.  (5) In the nested scenario, `break 'o` inside
the unlabeled (otherwise infinite) inner loop exits the inner loop,
propagates across it, and is absorbed by the enclosing loop labeled `'o`,
which exits with `Continue` flow — so both otherwise-infinite loops
terminate. -/
theorem c7_label_matching :
    (∀ (n : Nat) (label : Option String) (cond step : Expression)
        (block : List Expression) (prevSt prevLc st lc : Nat)
        (s s₀ s₁ s₂ : Runtime) (x e : Expect) (f : Flow) (L : String),
      evalExpr n cond .Right s = .ok (s₀, x, f) →
      popV s₀ = some (s₁, .Bool true) →
      evalBlock n block s₁ = .ok (s₂, e, .Break (some L)) →
      forStep (n + 1) label cond step block prevSt prevLc st lc s
        = .ok (.done (truncStacks s₂ prevSt prevLc)
            (if label = some L then .Continue else .Break (some L))))
  ∧ (∀ (n : Nat) (label : Option String) (cond step : Expression)
        (block : List Expression) (prevSt prevLc st lc : Nat)
        (s s₀ s₁ s₂ : Runtime) (x e : Expect) (f : Flow),
      evalExpr n cond .Right s = .ok (s₀, x, f) →
      popV s₀ = some (s₁, .Bool true) →
      evalBlock n block s₁ = .ok (s₂, e, .Break none) →
      forStep (n + 1) label cond step block prevSt prevLc st lc s
        = .ok (.done (truncStacks s₂ prevSt prevLc) .Continue))
  ∧ (∀ (n : Nat) (label : Option String) (cond step : Expression)
        (block : List Expression) (prevSt prevLc st lc : Nat)
        (s s₀ s₁ s₂ : Runtime) (x e : Expect) (f : Flow) (L : String),
      label ≠ some L →
      evalExpr n cond .Right s = .ok (s₀, x, f) →
      popV s₀ = some (s₁, .Bool true) →
      evalBlock n block s₁ = .ok (s₂, e, .ContinueLoop (some L)) →
      forStep (n + 1) label cond step block prevSt prevLc st lc s
        = .ok (.done (truncStacks s₂ prevSt prevLc)
            (.ContinueLoop (some L))))
  ∧ (∀ (n : Nat) (cond step : Expression) (block : List Expression)
        (prevSt prevLc st lc : Nat) (s s₀ s₁ s₂ s₃ : Runtime) (x e x₂ : Expect)
        (f f₂ : Flow) (L : String),
      evalExpr n cond .Right s = .ok (s₀, x, f) →
      popV s₀ = some (s₁, .Bool true) →
      evalBlock n block s₁ = .ok (s₂, e, .ContinueLoop (some L)) →
      evalExpr n step .Right s₂ = .ok (s₃, x₂, f₂) →
      forStep (n + 1) (some L) cond step block prevSt prevLc st lc s
        = .ok (.again s₃))
  ∧ evalExpr 30 outerPropFor .Right exEmpty
      = .ok (exEmpty, .Nothing, .Continue) := by
  refine ⟨?_, ?_, ?_, ?_, rfl⟩
  · intro n label cond step block prevSt prevLc st lc s s₀ s₁ s₂ x e f L hc
      hp hb
    simp [forStep, hc, hp, hb]
  · intro n label cond step block prevSt prevLc st lc s s₀ s₁ s₂ x e f hc
      hp hb
    simp [forStep, hc, hp, hb]
  · intro n label cond step block prevSt prevLc st lc s s₀ s₁ s₂ x e f L
      hne hc hp hb
    simp [forStep, hc, hp, hb, hne]
  · intro n cond step block prevSt prevLc st lc s s₀ s₁ s₂ s₃ x e x₂ f f₂
      L hc hp hb hs
    simp [forStep, hc, hp, hb, hs]

/-- C7 (witness for `c7_label_matching`): a `break 'z` inside an unlabeled
loop exits it and propagates `Break (some "z")`. -/
theorem c7_label_matching_witness :
    forStep 9 none (.Bool true) (.Number 0) [.Break (some "z")] 5 5 0 0
      exEmpty
      = .ok (.done (truncStacks exEmpty 5 5) (.Break (some "z"))) := by
  simpa using c7_label_matching.1 8 none (.Bool true) (.Number 0)
    [.Break (some "z")] 5 5 0 0 exEmpty (pushV exEmpty (.Bool true))
    exEmpty exEmpty .Something .Nothing .Continue "z" rfl rfl rfl

/-! ## C10: flows of the For header expressions are discarded -/

/-- A function whose body starts with a loop whose `init` is a `Return`
expression; if the header flow propagated, the function would return `1`
from the loop header, never reaching the final `return 2`. -/
def fInitReturn : Func :=
  { name := "f", args := [], returns := true, block :=
      [.For none (.Return (.Number 1)) (.Bool false) (.Number 0) [],
        .Return (.Number 2)] }

/-- State for the C10 end-to-end scenario. -/
def exInitReturn : Runtime :=
  { stack := [], call_stack := [("main", 0, 0)], local_stack := [],
    functions := [("f", fInitReturn)] }

/-- C10: the flows produced by a For loop's `init`, `cond` and `step` are
never propagated.  (1) `for_expr` proceeds to the loop from the post-init
state no matter which flow `init` produced.  (2) Two condition expressions
reaching the same state — with arbitrary, possibly different flows — give
identical loop behaviour.  (3) Likewise for two step expressions on the
iteration path.  (4) End to end: a `Return` expression in `init` does not
exit the enclosing function: `f` still runs past the loop and returns 2
(the header's side effect of writing 1 into the return slot is then
overwritten). -/
theorem c10_for_header_flow_discarded :
    (∀ (n : Nat) (label : Option String) (init cond step : Expression)
        (block : List Expression) (s s₁ : Runtime) (x : Expect) (f : Flow),
      evalExpr n init .Right s = .ok (s₁, x, f) →
      forExpr (n + 1) label init cond step block s
        = forLoop n label cond step block s.stack.length
            s.local_stack.length s₁.stack.length s₁.local_stack.length s₁)
  ∧ (∀ (n : Nat) (label : Option String) (cond₁ cond₂ step : Expression)
        (block : List Expression) (prevSt prevLc st lc : Nat)
        (s s₀ : Runtime) (x₁ x₂ : Expect) (f₁ f₂ : Flow),
      evalExpr n cond₁ .Right s = .ok (s₀, x₁, f₁) →
      evalExpr n cond₂ .Right s = .ok (s₀, x₂, f₂) →
      forStep (n + 1) label cond₁ step block prevSt prevLc st lc s
        = forStep (n + 1) label cond₂ step block prevSt prevLc st lc s)
  ∧ (∀ (n : Nat) (label : Option String) (cond step₁ step₂ : Expression)
        (block : List Expression) (prevSt prevLc st lc : Nat)
        (s s₀ s₁ s₂ s₃ : Runtime) (x e x₁ x₂ : Expect) (f f₁ f₂ : Flow),
      evalExpr n cond .Right s = .ok (s₀, x, f) →
      popV s₀ = some (s₁, .Bool true) →
      evalBlock n block s₁ = .ok (s₂, e, .Continue) →
      evalExpr n step₁ .Right s₂ = .ok (s₃, x₁, f₁) →
      evalExpr n step₂ .Right s₂ = .ok (s₃, x₂, f₂) →
      forStep (n + 1) label cond step₁ block prevSt prevLc st lc s
        = forStep (n + 1) label cond step₂ block prevSt prevLc st lc s)
  ∧ evalExpr 99 (.Call "f" []) .Right exInitReturn
      = .ok ({ exInitReturn with stack := [.F64 2] },
          .Something, .Continue) := by
  refine ⟨?_, ?_, ?_, rfl⟩
  · intro n label init cond step block s s₁ x f h
    simp [forExpr, h]
  · intro n label cond₁ cond₂ step block prevSt prevLc st lc s s₀ x₁ x₂ f₁
      f₂ h₁ h₂
    simp [forStep, h₁, h₂]
  · intro n label cond step₁ step₂ block prevSt prevLc st lc s s₀ s₁ s₂ s₃
      x e x₁ x₂ f f₁ f₂ hc hp hb h₁ h₂
    simp [forStep, hc, hp, hb, h₁, h₂]

/-- C10 (witness for `c10_for_header_flow_discarded`). -/
theorem c10_for_header_flow_discarded_witness :
    forExpr 9 none (.Number 5) (.Bool false) (.Number 0) [] exEmpty
      = forLoop 8 none (.Bool false) (.Number 0) [] 0 0 1 0
          (pushV exEmpty (.F64 5)) := by
  simpa [exEmpty, pushV] using
    c10_for_header_flow_discarded.1 8 none (.Number 5) (.Bool false)
      (.Number 0) [] exEmpty (pushV exEmpty (.F64 5)) .Something .Continue
      rfl

/-! ## C4: stack heights after a completed user-function call -/

/-- A user function whose body calls the built-in `sleep` with *no*
argument: the built-in pops the caller's value below the frame base. -/
def fPopper : Func :=
  { name := "f", args := [], returns := false, block := [.Call "sleep" []] }

/-- `main` holds the local `a ↦ F64 5` on the value stack and calls
`f()`. -/
def exSleep : Runtime :=
  { stack := [.F64 5], call_stack := [("main", 0, 0)],
    local_stack := [("a", 0)], functions := [("f", fPopper)] }

/-- C4 (counterexample): the call to `f` runs to completion (no error, no
abnormal flow), yet the value stack ends one *below* the caller's pre-call
height: `sleep()` with zero arguments popped the caller's `F64 5`, and
`pop_fn`'s truncation cannot restore a shrunken stack. -/
theorem c4_call_shrinks_stack :
    evalExpr 9 (.Call "f" []) .Right exSleep
      = .ok ({ exSleep with stack := [] }, .Nothing, .Continue)
  ∧ ({ exSleep with stack := [] } : Runtime).stack.length
      ≠ exSleep.stack.length + 0 :=
  ⟨rfl, by decide⟩

/-- C4 (amended): after a user-function call that runs to completion
(`Continue` or `Return` flow from the body, with the returns/production
checks passing), *provided the body left both stacks at or above the
frame bases* (which builtin calls with missing arguments can violate),
the value-stack height equals the caller's pre-call height plus 1 if the
function declares a return and plus 0 otherwise, the local-stack height
equals the pre-call local height, and the populated return slot (when
there is one) is the value on top of the stack.  Part 1: a function
without a return; part 2: a function with a return, whose slot value `v`
is not the `Return` sentinel. -/
theorem c4_call_unwinding :
    (∀ (n : Nat) (name : String) (args : List Expression) (f : Func)
        (s s₂ s₅ : Runtime) (binds : List (String × Nat)) (flow : Flow),
      lookupKey s.functions name = some f →
      f.returns = false →
      args.length = f.args.length →
      evalArgs n args s = .ok (.done s₂) →
      bindParams s₂.stack f.args s.stack.length = .ok binds →
      evalBlock n f.block
          { s₂ with
            call_stack := s₂.call_stack
              ++ [(name, s.stack.length, s.local_stack.length)],
            local_stack := s₂.local_stack ++ binds }
        = .ok (s₅, .Nothing, flow) →
      s₅.call_stack = s₂.call_stack
        ++ [(name, s.stack.length, s.local_stack.length)] →
      (flow = .Continue ∨ flow = .Return) →
      s.stack.length ≤ s₅.stack.length →
      s.local_stack.length ≤ s₅.local_stack.length →
      evalCall (n + 1) name args s
          = .ok ({ s₅ with
              stack := s₅.stack.take s.stack.length,
              local_stack := s₅.local_stack.take s.local_stack.length,
              call_stack := s₂.call_stack }, .Nothing, .Continue)
        ∧ (s₅.stack.take s.stack.length).length = s.stack.length
        ∧ (s₅.local_stack.take s.local_stack.length).length
            = s.local_stack.length)
  ∧ (∀ (n : Nat) (name : String) (args : List Expression) (f : Func)
        (s s₂ s₅ : Runtime) (binds : List (String × Nat)) (x : Expect)
        (flow : Flow) (v : Variable),
      lookupKey s.functions name = some f →
      f.returns = true →
      args.length = f.args.length →
      evalArgs n args (pushV s .Return) = .ok (.done s₂) →
      bindParams s₂.stack f.args (s.stack.length + 1) = .ok binds →
      evalBlock n f.block
          { s₂ with
            call_stack := s₂.call_stack
              ++ [(name, s.stack.length + 1, s.local_stack.length)],
            local_stack := (s₂.local_stack ++ [("return", s.stack.length)])
              ++ binds }
        = .ok (s₅, x, flow) →
      s₅.call_stack = s₂.call_stack
        ++ [(name, s.stack.length + 1, s.local_stack.length)] →
      (flow = .Continue ∨ flow = .Return) →
      s.stack.length + 1 ≤ s₅.stack.length →
      s.local_stack.length ≤ s₅.local_stack.length →
      (s₅.stack.take (s.stack.length + 1)).getLast? = some v →
      v ≠ .Return →
      evalCall (n + 1) name args s
          = .ok ({ s₅ with
              stack := s₅.stack.take (s.stack.length + 1),
              local_stack := s₅.local_stack.take s.local_stack.length,
              call_stack := s₂.call_stack }, .Something, .Continue)
        ∧ (s₅.stack.take (s.stack.length + 1)).length
            = s.stack.length + 1
        ∧ (s₅.local_stack.take s.local_stack.length).length
            = s.local_stack.length
        ∧ (s₅.stack.take (s.stack.length + 1)).getLast? = some v) := by
  constructor
  · intro n name args f s s₂ s₅ binds flow hf hret ha hargs hbind hblk hcs
      hfl hst hlc
    refine ⟨?_, ?_, ?_⟩
    · rcases hfl with rfl | rfl <;>
        simp [evalCall, hf, hret, ha, hargs, pushFn, hbind, hblk, popFn,
          hcs, List.getLast?_concat, List.dropLast_concat]
    · simp [List.length_take, Nat.min_eq_left hst]
    · simp [List.length_take, Nat.min_eq_left hlc]
  · intro n name args f s s₂ s₅ binds x flow v hf hret ha hargs hbind hblk
      hcs hfl hst hlc htop hvne
    refine ⟨?_, ?_, ?_, htop⟩
    · rcases hfl with rfl | rfl <;> cases x <;> cases v <;>
        simp_all [evalCall, hf, hret, ha, hargs, pushFn, pushV, hbind,
          popFn, hcs, List.getLast?_concat, List.dropLast_concat]
    · simp [List.length_take, Nat.min_eq_left hst]
    · simp [List.length_take, Nat.min_eq_left hlc]

/-- A user function with a declared return: `fn g() -> { return 42 }`. -/
def fRet : Func :=
  { name := "g", args := [], returns := true,
    block := [.Return (.Number 42)] }

/-- `main` frame with an empty stack and `g` registered. -/
def exRet : Runtime :=
  { stack := [], call_stack := [("main", 0, 0)], local_stack := [],
    functions := [("g", fRet)] }

/-- C4 (witness for `c4_call_unwinding`): calling `g()` leaves exactly the
return value on the stack, one above the caller's (empty) pre-call
height. -/
theorem c4_call_unwinding_witness :
    evalCall 9 "g" [] exRet
      = .ok ({ exRet with stack := [.F64 42] }, .Something, .Continue) := by
  have h := c4_call_unwinding.2 8 "g" [] fRet exRet (pushV exRet .Return)
    ⟨[.F64 42], [("main", 0, 0), ("g", 1, 0)], [("return", 0)],
      [("g", fRet)]⟩
    [] .Something .Return (.F64 42) rfl rfl rfl rfl rfl rfl rfl
    (Or.inr rfl) (by decide) (by decide) rfl (by simp)
  simpa [exRet, pushV] using h.1

end Dyon
